import Mathlib

/-!
Shallow embedding of `src/webscraper_weather.py` (class `WebScraper`).

The scraper walks a fixed set of weather stations, parses one HTML table
row per year into twelve monthly observation records, sanitizes the cell
text, accumulates the records into two DataFrames (`data_temp`,
`data_wind`) selected by the station's channel code, and serializes both
frames to JSON files once at the end of the run.

Modelling choices:
* DataFrames with columns `Time`, `Value`, `Station` become `List Record`.
* Unhandled Python exceptions (`IndexError` on an empty row, a
  `pd.to_datetime` parse failure, the `ValueError` raised when a list of
  twelve dates is assigned as a column of a frame of a different length,
  `KeyError` on a missing `station_dict` entry) become `Except.error`.
* The browser is abstracted: `pages site channel` stands for the table
  rows the driver scrapes after selecting that site and channel.
-/

namespace WebscraperWeather

/-- One row of the output DataFrames, columns `Time`, `Value`, `Station`
(`load_data` builds these as the frame `data_insert`). -/
structure Record where
  time : String
  value : String
  station : String
deriving DecidableEq, Repr

/-- The two accumulator DataFrames `self.data_temp` and `self.data_wind`
of `WebScraper`, both starting empty in `__init__`. -/
structure ScrapeState where
  data_temp : List Record
  data_wind : List Record
deriving DecidableEq, Repr

/-- Tries to match the regex `\nRevision: (\d+\.+\-)` of
`load_data` at the head of the character list: a newline, the literal
`Revision: `, one or more (ASCII) digits, one or more dots, then a
hyphen.  Returns the characters remaining after the match, or `none`
when the pattern does not match at this position.  The character classes
are disjoint, so the greedy match is the maximal digit run followed by
the maximal dot run. -/
def matchRevisionTag : List Char → Option (List Char)
  | '\n' :: rest =>
    let lit := "Revision: ".toList
    if lit.isPrefixOf rest then
      let r1 := rest.drop lit.length
      let digits := r1.takeWhile Char.isDigit
      let r2 := r1.dropWhile Char.isDigit
      if digits.isEmpty then none
      else
        let dots := r2.takeWhile (· == '.')
        let r3 := r2.dropWhile (· == '.')
        if dots.isEmpty then none
        else
          match r3 with
          | '-' :: r4 => some r4
          | _ => none
    else none
  | _ => none

/-- One pass of `re.sub(r'\nRevision: (\d+\.+\-)', '', row)`: scan left to
right, deleting each non-overlapping occurrence of the pattern.  `fuel`
bounds the recursion; callers pass the length of the input, which
suffices because every step consumes at least one character. -/
def stripRevisionAux : Nat → List Char → List Char
  | 0, s => s
  | _ + 1, [] => []
  | fuel + 1, c :: rest =>
    match matchRevisionTag (c :: rest) with
    | some r => stripRevisionAux fuel r
    | none => c :: stripRevisionAux fuel rest

/-- The sanitization applied to every `Value` cell by `load_data`:
`re.sub(r'\nRevision: (\d+\.+\-)', '', row)`. -/
def stripRevision (s : String) : String :=
  ⟨stripRevisionAux s.data.length s.data⟩

/-- Whether the annotation pattern occurs anywhere in the character
list (i.e. whether `re.sub` would change the text at all). -/
def hasRevisionTag : List Char → Bool
  | [] => false
  | c :: rest => (matchRevisionTag (c :: rest)).isSome || hasRevisionTag rest

/-- Zero-pads a month (or day) number to two digits, as `%m`/`%d` do. -/
def pad2 (n : Nat) : String :=
  if n < 10 then "0" ++ toString n else toString n

/-- `pd.to_datetime(str(year)+'-'+str(m)+'-1').strftime(format='%Y-%m-%d')`
for an in-range year (1678..2261 is always four digits, so `%Y` needs no
padding). -/
def fmtDate (y m : Nat) : String :=
  toString y ++ "-" ++ pad2 m ++ "-01"

/-- Decimal parse of a year cell: all-digit, non-empty, no leading
zeros. -/
def strToNat? (s : String) : Option Nat :=
  if s.data ≠ [] ∧ s.data.all Char.isDigit then
    some (s.data.foldl (fun n c => 10 * n + (c.toNat - 48)) 0)
  else none

/-- Models `pd.to_datetime(str(year)+'-'+str(m)+'-1')` succeeding for all
twelve months: the year cell must be a plain decimal year and every date
`year-m-1` must lie within the pandas `Timestamp` nanosecond range
(1677-09-21 through 2262-04-11), so exactly the years 1678 through 2261
are accepted; anything else raises. -/
def parseYear (s : String) : Option Nat :=
  match strToNat? s with
  | some y => if 1678 ≤ y ∧ y ≤ 2261 ∧ toString y = s then some y else none
  | none => none

/-- `data[1:-1]`: the interior cells of a row, dropping the year cell and
the trailing summary/annual-total cell. -/
def rowValues (data : List String) : List String :=
  (data.drop 1).dropLast

/-- The list `dates` built per row: the twelve first-of-month timestamps
for months 1 through 12. -/
def rowDates (y : Nat) : List String :=
  (List.range' 1 12).map (fmtDate y)

/-- The rows of the frame `data_insert` once the `Time` and `Station`
columns are added and the `Value` column is sanitized. -/
def rowRecords (station : String) (y : Nat) (vals : List String) : List Record :=
  List.zipWith
    (fun t v => { time := t, value := stripRevision v, station := station })
    (rowDates y) vals

/-- One iteration of the row loop of `WebScraper.load_data`.  Faults of
the Python code are modelled as `Except.error`: `data[0]` on an empty
row raises `IndexError`; `pd.to_datetime` raises on an unparseable or
out-of-range year (this happens while `dates` is built, before the
`Time` column is assigned); assigning the twelve `dates` as the `Time`
column raises `ValueError` unless the frame already has exactly twelve
rows, i.e. unless the row had exactly 14 cells. -/
def processRow (st : ScrapeState) (station data_type : String)
    (data : List String) : Except String ScrapeState :=
  match data with
  | [] => Except.error "IndexError: list index out of range"
  | year :: _ =>
    if year = "Year" then Except.ok st
    else
      match parseYear year with
      | none => Except.error "pandas: unable to parse date"
      | some y =>
        let values := rowValues data
        if values.length = 12 then
          let data_insert := rowRecords station y values
          if data_type = "1" then
            Except.ok { st with data_temp := st.data_temp ++ data_insert }
          else if data_type = "4" then
            Except.ok { st with data_wind := st.data_wind ++ data_insert }
          else
            Except.ok st
        else
          Except.error "ValueError: Length of values does not match length of index"

/-- `WebScraper.load_data`: iterates the scraped table rows top to
bottom, accumulating records into the state; the first fault aborts. -/
def load_data (st : ScrapeState) (station data_type : String)
    (rows : List (List String)) : Except String ScrapeState :=
  match rows with
  | [] => Except.ok st
  | r :: rs =>
    match processRow st station data_type r with
    | Except.error e => Except.error e
    | Except.ok st' => load_data st' station data_type rs

/-- The module-level `station_dict` constant:
station name ↦ (site id, channel id). -/
def station_dict : List (String × String × String) :=
  [("WAKKANAI", "47401", "1"), ("HABORO", "47404", "1"),
   ("RUMOI", "47406", "1"), ("OBIHIRO", "47417", "1"),
   ("OMU", "47405", "4"), ("SUTTSU", "47421", "4"),
   ("MURORAN", "47423", "4"), ("KUTCHAN", "47433", "4")]

/-- `station_dict[station]` read from the module-level constant (the name
`station_dict` inside `get_data` resolves to the global, not to
`self.station_dict`); `none` models the `KeyError`. -/
def lookupStation (name : String) : Option (String × String) :=
  (station_dict.find? (fun e => e.1 == name)).map (fun e => e.2)

/-- `WebScraper.get_data`: iterates the entries of the instance
dictionary (`for station in self.station_dict` yields its keys), but the
site id selected in the form and the channel id passed to `load_data`
are both read from the module-level `station_dict` constant.  The page
content the driver sees after selecting a site and channel is abstracted
as `pages site channel`. -/
def get_data (selfDict : List (String × String × String))
    (pages : String → String → List (List String))
    (st : ScrapeState) : Except String ScrapeState :=
  match selfDict with
  | [] => Except.ok st
  | entry :: rest =>
    match lookupStation entry.1 with
    | none => Except.error "KeyError"
    | some sc =>
      match load_data st entry.1 sc.2 (pages sc.1 sc.2) with
      | Except.error e => Except.error e
      | Except.ok st' => get_data rest pages st'

/-- `WebScraper.write_data`: serializes the two frames, one file per
channel. -/
def write_data (st : ScrapeState) : List (String × List Record) :=
  [("data_temp.json", st.data_temp), ("data_wind.json", st.data_wind)]

/-- `WebScraper.pipeline`: scrape everything, then write both files once
at the very end; a fault anywhere during scraping aborts before any file
is written. -/
def pipeline (selfDict : List (String × String × String))
    (pages : String → String → List (List String)) :
    Except String (List (String × List Record)) :=
  match get_data selfDict pages { data_temp := [], data_wind := [] } with
  | Except.error e => Except.error e
  | Except.ok st => Except.ok (write_data st)

/-- Whether a run step raised (any unhandled Python exception). -/
def isFault {α : Type} : Except String α → Bool
  | Except.error _ => true
  | Except.ok _ => false

/-- Twelve concrete monthly cell texts, used to exercise the theorems on
a fully evaluated year-table row. -/
def demoVals : List String :=
  ["1.0", "2.0", "3.0", "4.0", "5.0", "6.0",
   "7.0", "8.0", "9.0", "10.0", "11.0", "12.0"]

/-- A concrete well-formed year-table row: year cell, twelve monthly
cells, one trailing annual-mean cell. -/
def demoRow : List String := "1991" :: demoVals ++ ["7.7"]

/-- A scraped site whose every page shows the single row `demoRow`. -/
def demoPages : String → String → List (List String) := fun _ _ => [demoRow]

/-- A scraped site whose every page shows one table row with no cells at
all (so `data[0]` raises `IndexError`). -/
def faultPages : String → String → List (List String) := fun _ _ => [[]]

/-- A scraped site with no table rows at all. -/
def noopPages : String → String → List (List String) := fun _ _ => []

/-- A state already holding one temperature record from an earlier
station, used to exercise the append-only theorems. -/
def demoSeed : ScrapeState :=
  ⟨[{ time := "1990-01-01", value := "0.5", station := "OLD" }], []⟩

/-! ## Helper lemmas -/

theorem strip_of_no_tag : ∀ (fuel : Nat) (l : List Char),
    hasRevisionTag l = false → stripRevisionAux fuel l = l := by
  intro fuel
  induction fuel with
  | zero => intro l _; rfl
  | succ n ih =>
    intro l h
    cases l with
    | nil => rfl
    | cons c rest =>
      rw [hasRevisionTag, Bool.or_eq_false_iff] at h
      have h1 : matchRevisionTag (c :: rest) = none := by
        cases hm : matchRevisionTag (c :: rest) with
        | none => rfl
        | some r => rw [hm] at h; simp at h
      simp only [stripRevisionAux, h1]
      exact congrArg (c :: ·) (ih rest h.2)

theorem parseYear_ne_header (s : String) (y : Nat)
    (h : parseYear s = some y) : s ≠ "Year" := by
  intro hs
  rw [hs] at h
  rw [show parseYear "Year" = none by decide] at h
  exact Option.noConfusion h

theorem station_of_mem_zip (station : String) :
    ∀ (ts vs : List String) (r : Record),
      r ∈ List.zipWith
        (fun t v =>
          ({ time := t, value := stripRevision v, station := station } : Record))
        ts vs →
      r.station = station := by
  intro ts
  induction ts with
  | nil => intro vs r hr; simp at hr
  | cons t ts ih =>
    intro vs r hr
    cases vs with
    | nil => simp at hr
    | cons v vs =>
      rw [List.zipWith_cons_cons] at hr
      rcases List.mem_cons.mp hr with h | h
      · rw [h]
      · exact ih vs r h

theorem station_of_mem_rowRecords (station : String) (y : Nat)
    (vals : List String) (r : Record) (hr : r ∈ rowRecords station y vals) :
    r.station = station :=
  station_of_mem_zip station (rowDates y) vals r hr

theorem processRow_append (st st' : ScrapeState) (station dt : String)
    (data : List String) (h : processRow st station dt data = Except.ok st') :
    ∃ dT dW,
      st'.data_temp = st.data_temp ++ dT ∧
      st'.data_wind = st.data_wind ++ dW ∧
      (∀ r ∈ dT, r.station = station) ∧
      (∀ r ∈ dW, r.station = station) ∧
      (dt ≠ "1" → dT = []) ∧
      (dt ≠ "4" → dW = []) := by
  cases data with
  | nil => exact absurd h (by simp [processRow])
  | cons year rest =>
    by_cases hY : year = "Year"
    · rw [hY] at h
      simp only [processRow, if_pos rfl] at h
      injection h with h'
      subst h'
      exact ⟨[], [], by simp, by simp, by simp, by simp, fun _ => rfl, fun _ => rfl⟩
    · simp only [processRow, if_neg hY] at h
      split at h
      · exact absurd h (by simp)
      · rename_i y _
        split at h
        · split at h
          · rename_i h1
            injection h with h'
            subst h'
            refine ⟨rowRecords station y (rowValues (year :: rest)), [],
              rfl, by simp, ?_, by simp, fun hc => absurd h1 hc, fun _ => rfl⟩
            exact fun r hr => station_of_mem_rowRecords station y _ r hr
          · split at h
            · rename_i h4
              injection h with h'
              subst h'
              refine ⟨[], rowRecords station y (rowValues (year :: rest)),
                by simp, rfl, by simp, ?_, fun _ => rfl, fun hc => absurd h4 hc⟩
              exact fun r hr => station_of_mem_rowRecords station y _ r hr
            · injection h with h'
              subst h'
              exact ⟨[], [], by simp, by simp, by simp, by simp,
                fun _ => rfl, fun _ => rfl⟩
        · exact absurd h (by simp)

theorem load_data_append (station dt : String) :
    ∀ (rows : List (List String)) (st st' : ScrapeState),
      load_data st station dt rows = Except.ok st' →
      ∃ dT dW,
        st'.data_temp = st.data_temp ++ dT ∧
        st'.data_wind = st.data_wind ++ dW ∧
        (∀ r ∈ dT, r.station = station) ∧
        (∀ r ∈ dW, r.station = station) ∧
        (dt ≠ "1" → dT = []) ∧
        (dt ≠ "4" → dW = []) := by
  intro rows
  induction rows with
  | nil =>
    intro st st' h
    simp only [load_data] at h
    injection h with h'
    subst h'
    exact ⟨[], [], by simp, by simp, by simp, by simp, fun _ => rfl, fun _ => rfl⟩
  | cons r rs ih =>
    intro st st' h
    simp only [load_data] at h
    split at h
    · exact absurd h (by simp)
    · rename_i st1 hp
      obtain ⟨dT1, dW1, ht1, hw1, hs1, hs1', he1, he1'⟩ :=
        processRow_append st st1 station dt r hp
      obtain ⟨dT2, dW2, ht2, hw2, hs2, hs2', he2, he2'⟩ := ih st1 st' h
      refine ⟨dT1 ++ dT2, dW1 ++ dW2, ?_, ?_, ?_, ?_, ?_, ?_⟩
      · rw [ht2, ht1, List.append_assoc]
      · rw [hw2, hw1, List.append_assoc]
      · intro rr hrr
        rcases List.mem_append.mp hrr with hh | hh
        · exact hs1 rr hh
        · exact hs2 rr hh
      · intro rr hrr
        rcases List.mem_append.mp hrr with hh | hh
        · exact hs1' rr hh
        · exact hs2' rr hh
      · intro hc; rw [he1 hc, he2 hc]; rfl
      · intro hc; rw [he1' hc, he2' hc]; rfl

theorem get_data_channels :
    ∀ (d : List (String × String × String))
      (pages : String → String → List (List String)) (st st' : ScrapeState),
      get_data d pages st = Except.ok st' →
      ∃ dT dW,
        st'.data_temp = st.data_temp ++ dT ∧
        st'.data_wind = st.data_wind ++ dW ∧
        (∀ r ∈ dT, ∃ site, lookupStation r.station = some (site, "1")) ∧
        (∀ r ∈ dW, ∃ site, lookupStation r.station = some (site, "4")) := by
  intro d
  induction d with
  | nil =>
    intro pages st st' h
    simp only [get_data] at h
    injection h with h'
    subst h'
    exact ⟨[], [], by simp, by simp, by simp, by simp⟩
  | cons entry rest ih =>
    intro pages st st' h
    simp only [get_data] at h
    split at h
    · exact absurd h (by simp)
    · rename_i sc hl
      split at h
      · exact absurd h (by simp)
      · rename_i st1 hld
        obtain ⟨dT1, dW1, ht1, hw1, hs1, hs1', he1, he1'⟩ :=
          load_data_append entry.1 sc.2 (pages sc.1 sc.2) st st1 hld
        obtain ⟨dT2, dW2, ht2, hw2, hc2, hc2'⟩ := ih pages st1 st' h
        refine ⟨dT1 ++ dT2, dW1 ++ dW2, ?_, ?_, ?_, ?_⟩
        · rw [ht2, ht1, List.append_assoc]
        · rw [hw2, hw1, List.append_assoc]
        · intro r hr
          rcases List.mem_append.mp hr with hh | hh
          · have hch : sc.2 = "1" := by
              by_contra hcc
              rw [he1 hcc] at hh
              simp at hh
            refine ⟨sc.1, ?_⟩
            rw [hs1 r hh, hl, ← hch]
          · exact hc2 r hh
        · intro r hr
          rcases List.mem_append.mp hr with hh | hh
          · have hch : sc.2 = "4" := by
              by_contra hcc
              rw [he1' hcc] at hh
              simp at hh
            refine ⟨sc.1, ?_⟩
            rw [hs1' r hh, hl, ← hch]
          · exact hc2' r hh

/-! ## Claim theorems -/

/-- Claim C2, counterexample: sanitizing `"5.3\nRevision: 999-"` does not
yield `"5.3"`.  The code's pattern `\nRevision: (\d+\.+\-)` demands at
least one dot between the digit run and the hyphen, so this text is
returned unchanged, contradicting the claimed result. -/
theorem sanitize_nodot_vector_fails :
    stripRevision "5.3\nRevision: 999-" ≠ "5.3" := by decide

/-- Claim C2, amended: the sanitization strips the suffix "newline +
'Revision: ' + digits + one or more dots + '-'".  Input
`"5.3\nRevision: 12.-"` yields `"5.3"`; an arbitrary-length digit run is
stripped when a dot precedes the hyphen (`"5.3\nRevision: 999.-"` yields
`"5.3"`); `"5.3\nRevision: 999-"` lacks the required dot and is returned
unchanged; `"5.3"` without an annotation is unchanged. -/
theorem sanitize_pattern_behaviour :
    stripRevision "5.3\nRevision: 12.-" = "5.3" ∧
    stripRevision "5.3\nRevision: 999.-" = "5.3" ∧
    stripRevision "5.3\nRevision: 999-" = "5.3\nRevision: 999-" ∧
    stripRevision "5.3" = "5.3" :=
  ⟨by decide, by decide, by decide, by decide⟩

/-- Claim C4: a table row whose first cell is the literal `"Year"` (the
header row) produces no observation record: both the row step and
`load_data` run on just that row return the state unchanged, so both
datasets are untouched. -/
theorem header_row_skipped (st : ScrapeState) (station dt : String)
    (rest : List String) :
    processRow st station dt ("Year" :: rest) = Except.ok st ∧
    load_data st station dt [("Year" :: rest)] = Except.ok st := by
  constructor
  · simp [processRow]
  · simp [load_data, processRow]

/-- Claim C6: the sanitization is idempotent on already-clean text: a
string containing no occurrence of the annotation pattern is returned
unchanged, hence stripping twice equals stripping once. -/
theorem strip_idempotent_on_clean (s : String)
    (h : hasRevisionTag s.data = false) :
    stripRevision s = s ∧
    stripRevision (stripRevision s) = stripRevision s := by
  have hs : stripRevision s = s := by
    show (⟨stripRevisionAux s.data.length s.data⟩ : String) = s
    rw [strip_of_no_tag _ _ h]
  exact ⟨hs, by rw [hs]; exact hs⟩

/-- Witness for C6 at the clean input `"5.3"`. -/
theorem strip_idempotent_on_clean_witness :
    stripRevision "5.3" = "5.3" ∧
    stripRevision (stripRevision "5.3") = stripRevision "5.3" :=
  strip_idempotent_on_clean "5.3" (by decide)

/-- Claim C9: a non-header row whose total cell count is not exactly 14
makes `load_data` raise instead of truncating or padding: the year must
parse and the twelve constructed timestamps cannot be assigned to a
`Value` column whose length differs from 12, so the row step faults. -/
theorem wrong_cell_count_faults (st : ScrapeState) (station dt : String)
    (data : List String)
    (hhd : ∀ c, data.head? = some c → c ≠ "Year")
    (hlen : data.length ≠ 14) :
    isFault (processRow st station dt data) = true := by
  cases data with
  | nil => rfl
  | cons year rest =>
    have hne : year ≠ "Year" := hhd year rfl
    have hlen' : (rowValues (year :: rest)).length ≠ 12 := by
      show rest.dropLast.length ≠ 12
      rw [List.length_dropLast]
      simp only [List.length_cons] at hlen
      omega
    simp only [processRow, if_neg hne]
    cases parseYear year with
    | none => rfl
    | some y => simp [hlen', isFault]

/-- Witness for C9: a row with a year cell and a single data cell (2
cells in all) faults. -/
theorem wrong_cell_count_faults_witness :
    isFault (processRow ⟨[], []⟩ "WAKKANAI" "1" ["1991", "1.0"]) = true :=
  wrong_cell_count_faults ⟨[], []⟩ "WAKKANAI" "1" ["1991", "1.0"]
    (fun c h => by
      simp only [List.head?_cons, Option.some.injEq] at h
      subst h
      decide)
    (by decide)

/-- Claim C10: a well-formed non-header row processed with a channel
code other than "1" or "4" is silently discarded: the row step raises no
error and returns the state, so its twelve records reach neither
dataset. -/
theorem unknown_channel_discards (st : ScrapeState)
    (station dt year extra : String) (y : Nat) (vs : List String)
    (hy : parseYear year = some y) (hlen : vs.length = 12)
    (h1 : dt ≠ "1") (h4 : dt ≠ "4") :
    processRow st station dt (year :: vs ++ [extra]) = Except.ok st := by
  have hne : year ≠ "Year" := parseYear_ne_header year y hy
  simp [processRow, hne, hy, rowValues, hlen, h1, h4]

/-- Witness for C10 at channel code "2" on a concrete well-formed
row. -/
theorem unknown_channel_discards_witness :
    processRow ⟨[], []⟩ "WAKKANAI" "2" ("1991" :: demoVals ++ ["7.7"]) =
      Except.ok ⟨[], []⟩ :=
  unknown_channel_discards ⟨[], []⟩ "WAKKANAI" "2" "1991" "7.7" 1991 demoVals
    (by decide) (by decide) (by decide) (by decide)

/-- Claim C1: a well-formed year-table row (a parseable year cell not
equal to "Year", twelve monthly cells, one trailing summary cell) makes
`load_data` emit exactly 12 records; the record at index i (month
m = i + 1) carries timestamp `fmtDate y (i + 1)` (the `%Y-%m-%d` form of
year-m-01), the sanitized i-th monthly cell, and the station name; the
trailing cell never yields a 13th record, and the twelve records are
appended to the dataset selected by the channel code. -/
theorem wellformed_row_emits_twelve (st : ScrapeState)
    (station year extra : String) (y : Nat) (vs : List String)
    (hy : parseYear year = some y) (hlen : vs.length = 12) :
    (rowRecords station y vs).length = 12 ∧
    (∀ i (hi : i < (rowRecords station y vs).length),
      (rowRecords station y vs)[i] =
        { time := fmtDate y (i + 1),
          value := stripRevision (vs.getD i ""),
          station := station }) ∧
    processRow st station "1" (year :: vs ++ [extra]) =
      Except.ok { st with data_temp := st.data_temp ++ rowRecords station y vs } ∧
    processRow st station "4" (year :: vs ++ [extra]) =
      Except.ok { st with data_wind := st.data_wind ++ rowRecords station y vs } := by
  have hne : year ≠ "Year" := parseYear_ne_header year y hy
  have hlr : (rowRecords station y vs).length = 12 := by
    simp [rowRecords, rowDates, hlen]
  have h41 : ("4" : String) ≠ "1" := by decide
  refine ⟨hlr, ?_, ?_, ?_⟩
  · intro i hi
    rw [hlr] at hi
    have hiv : i < vs.length := by omega
    simp only [rowRecords, List.getElem_zipWith, rowDates, List.getElem_map,
      List.getElem_range', Nat.one_mul]
    rw [List.getD_eq_getElem?_getD, List.getElem?_eq_getElem hiv,
      Option.getD_some, Nat.add_comm]
  · simp [processRow, hne, hy, rowValues, hlen]
  · simp [processRow, hne, hy, rowValues, hlen, h41]

/-- Witness for C1 on a concrete 14-cell row for station WAKKANAI, year
1991. -/
theorem wellformed_row_emits_twelve_witness :
    (rowRecords "WAKKANAI" 1991 demoVals).length = 12 ∧
    processRow ⟨[], []⟩ "WAKKANAI" "1" ("1991" :: demoVals ++ ["7.7"]) =
      Except.ok ⟨[] ++ rowRecords "WAKKANAI" 1991 demoVals, []⟩ :=
  ⟨(wellformed_row_emits_twelve ⟨[], []⟩ "WAKKANAI" "1991" "7.7" 1991 demoVals
      (by decide) (by decide)).1,
   (wellformed_row_emits_twelve ⟨[], []⟩ "WAKKANAI" "1991" "7.7" 1991 demoVals
      (by decide) (by decide)).2.2.1⟩

/-- Claim C3: a station processed with the temperature channel code "1"
leaves the wind dataset unchanged, a station processed with the
wind-speed code "4" leaves the temperature dataset unchanged, and in a
full run from empty state no record appears in both datasets. -/
theorem channel_partitioning :
    (∀ (st : ScrapeState) (station : String) (rows : List (List String))
       (st' : ScrapeState),
      load_data st station "1" rows = Except.ok st' →
      st'.data_wind = st.data_wind) ∧
    (∀ (st : ScrapeState) (station : String) (rows : List (List String))
       (st' : ScrapeState),
      load_data st station "4" rows = Except.ok st' →
      st'.data_temp = st.data_temp) ∧
    (∀ (d : List (String × String × String))
       (pages : String → String → List (List String)) (st' : ScrapeState),
      get_data d pages ⟨[], []⟩ = Except.ok st' →
      ∀ r ∈ st'.data_temp, r ∉ st'.data_wind) := by
  refine ⟨?_, ?_, ?_⟩
  · intro st station rows st' h
    obtain ⟨dT, dW, ht, hw, _, _, _, heW⟩ := load_data_append station "1" rows st st' h
    rw [hw, heW (by decide), List.append_nil]
  · intro st station rows st' h
    obtain ⟨dT, dW, ht, hw, _, _, heT, _⟩ := load_data_append station "4" rows st st' h
    rw [ht, heT (by decide), List.append_nil]
  · intro d pages st' h r hrT hrW
    obtain ⟨dT, dW, ht, hw, hc1, hc4⟩ := get_data_channels d pages ⟨[], []⟩ st' h
    rw [ht] at hrT
    rw [hw] at hrW
    simp only [List.nil_append] at hrT hrW
    obtain ⟨s1, h1⟩ := hc1 r hrT
    obtain ⟨s4, h4⟩ := hc4 r hrW
    rw [h1] at h4
    injection h4 with h4'
    have hcontra : ("1" : String) = "4" := congrArg Prod.snd h4'
    exact absurd hcontra (by decide)

/-- Witness for C3: after a run over one temperature station the record
`1991-01-01 / 1.0 / WAKKANAI` lands in the temperature dataset and is
absent from the wind dataset. -/
theorem channel_partitioning_witness :
    ({ time := "1991-01-01", value := "1.0", station := "WAKKANAI" } : Record) ∉
      (⟨rowRecords "WAKKANAI" 1991 demoVals, []⟩ : ScrapeState).data_wind :=
  channel_partitioning.2.2 [("WAKKANAI", "47401", "1")] demoPages
    ⟨rowRecords "WAKKANAI" 1991 demoVals, []⟩ rfl
    { time := "1991-01-01", value := "1.0", station := "WAKKANAI" } (by decide)

/-- Claim C5: when scraping fails anywhere (station lookup, navigation,
table parsing), the whole run aborts with that fault and neither output
file is written; a successful run writes exactly the two files, once,
from the final state, because serialization happens only at the very end
of `pipeline`. -/
theorem fault_aborts_before_write :
    (∀ (d : List (String × String × String))
       (pages : String → String → List (List String)) (e : String),
      get_data d pages ⟨[], []⟩ = Except.error e →
      pipeline d pages = Except.error e) ∧
    (∀ (d : List (String × String × String))
       (pages : String → String → List (List String))
       (out : List (String × List Record)),
      pipeline d pages = Except.ok out →
      ∃ st, get_data d pages ⟨[], []⟩ = Except.ok st ∧ out = write_data st) := by
  constructor
  · intro d pages e h
    simp [pipeline, h]
  · intro d pages out h
    simp only [pipeline] at h
    split at h
    · exact absurd h (by simp)
    · rename_i st hg
      injection h with h'
      exact ⟨st, hg, h'.symm⟩

/-- Witness for C5: a page with a row of zero cells makes the run abort
with the IndexError before any file is written. -/
theorem fault_aborts_before_write_witness :
    pipeline [("WAKKANAI", "47401", "1")] faultPages =
      Except.error "IndexError: list index out of range" :=
  fault_aborts_before_write.1 [("WAKKANAI", "47401", "1")] faultPages
    "IndexError: list index out of range" rfl

/-- Claim C7: the datasets are append-only and order-preserving: after
any successful row step and after any successful full `get_data` run,
the previous contents of each dataset survive unchanged, in order, as a
prefix of the new contents; new records only go to the end. -/
theorem datasets_append_only :
    (∀ (st : ScrapeState) (station dt : String) (data : List String)
       (st' : ScrapeState),
      processRow st station dt data = Except.ok st' →
      List.IsPrefix st.data_temp st'.data_temp ∧
      List.IsPrefix st.data_wind st'.data_wind) ∧
    (∀ (d : List (String × String × String))
       (pages : String → String → List (List String)) (st st' : ScrapeState),
      get_data d pages st = Except.ok st' →
      List.IsPrefix st.data_temp st'.data_temp ∧
      List.IsPrefix st.data_wind st'.data_wind) := by
  constructor
  · intro st station dt data st' h
    obtain ⟨dT, dW, ht, hw, _, _, _, _⟩ := processRow_append st st' station dt data h
    exact ⟨⟨dT, ht.symm⟩, ⟨dW, hw.symm⟩⟩
  · intro d pages st st' h
    obtain ⟨dT, dW, ht, hw, _, _⟩ := get_data_channels d pages st st' h
    exact ⟨⟨dT, ht.symm⟩, ⟨dW, hw.symm⟩⟩

/-- Witness for C7: appending a concrete year-table row onto a state
already holding an older record keeps that record as a prefix. -/
theorem datasets_append_only_witness :
    List.IsPrefix demoSeed.data_temp
      (demoSeed.data_temp ++ rowRecords "WAKKANAI" 1991 demoVals) ∧
    List.IsPrefix demoSeed.data_wind demoSeed.data_wind :=
  datasets_append_only.1 demoSeed "WAKKANAI" "1" demoRow
    ⟨demoSeed.data_temp ++ rowRecords "WAKKANAI" 1991 demoVals,
     demoSeed.data_wind⟩ rfl

/-- Claim C8: `get_data` reads the site and channel identifiers from the
module-level `station_dict` constant, not from the instance's own
dictionary: two instance dictionaries with the same keys behave
identically whatever their values, and a key absent from the constant
makes the run fault with the lookup error. -/
theorem module_constant_lookup :
    (∀ (d1 d2 : List (String × String × String))
       (pages : String → String → List (List String)) (st : ScrapeState),
      d1.map (fun e => e.1) = d2.map (fun e => e.1) →
      get_data d1 pages st = get_data d2 pages st) ∧
    (∀ (d : List (String × String × String))
       (pages : String → String → List (List String)) (st : ScrapeState),
      (∃ entry ∈ d, lookupStation entry.1 = none) →
      isFault (get_data d pages st) = true) := by
  constructor
  · intro d1
    induction d1 with
    | nil =>
      intro d2 pages st hmap
      cases d2 with
      | nil => rfl
      | cons e2 r2 => simp at hmap
    | cons e1 r1 ih =>
      intro d2 pages st hmap
      cases d2 with
      | nil => simp at hmap
      | cons e2 r2 =>
        simp only [List.map_cons, List.cons.injEq] at hmap
        obtain ⟨h1, hr⟩ := hmap
        simp only [get_data, h1]
        split
        · rfl
        · split
          · rfl
          · exact ih r2 pages _ hr
  · intro d
    induction d with
    | nil =>
      intro pages st h
      obtain ⟨entry, hmem, _⟩ := h
      simp at hmem
    | cons e1 r1 ih =>
      intro pages st h
      simp only [get_data]
      split
      · rfl
      · rename_i sc hl
        split
        · rfl
        · rename_i st1 hld
          obtain ⟨entry, hmem, hnone⟩ := h
          rcases List.mem_cons.mp hmem with rfl | hmem'
          · rw [hl] at hnone
            exact Option.noConfusion hnone
          · exact ih pages st1 ⟨entry, hmem', hnone⟩

/-- Witness for C8: an instance entry for WAKKANAI whose own values name
the wind channel is processed exactly like the constant's temperature
entry, and a key missing from the constant faults the run. -/
theorem module_constant_lookup_witness :
    get_data [("WAKKANAI", "00000", "4")] noopPages ⟨[], []⟩ =
      get_data [("WAKKANAI", "47401", "1")] noopPages ⟨[], []⟩ ∧
    isFault (get_data [("NOSUCHSTATION", "47401", "1")] noopPages ⟨[], []⟩) = true :=
  ⟨module_constant_lookup.1 [("WAKKANAI", "00000", "4")]
      [("WAKKANAI", "47401", "1")] noopPages ⟨[], []⟩ rfl,
   module_constant_lookup.2 [("NOSUCHSTATION", "47401", "1")] noopPages ⟨[], []⟩
      ⟨("NOSUCHSTATION", "47401", "1"), by decide, by decide⟩⟩

end WebscraperWeather
